import Mathlib

/-
Verification of the skylite interpreter-wrapper layer.

The repository consists of two thin C wrapper files:
  crates/skylite-proc/chibi-scheme-wrapper/wrapper.c  (Adapter A, chibi-scheme)
  crates/skylite-proc/guile-wrapper/wrapper.c         (Adapter B, guile)
Each exposed function re-expresses a preprocessor macro of the wrapped
interpreter as a linkable function.  The wrapped interpreters themselves are
not part of the repository, so their macros are modelled here from the spec
(each such definition carries a doc comment starting with
"Modelled from the spec:").  The wrapper functions themselves are translated
directly from wrapper.c and keep their C names.
-/

set_option autoImplicit false

namespace SkyliteWrappers

namespace Chibi

/-- Modelled from the spec: an opaque chibi-scheme value handle.  Immediates
(booleans, fixnums, characters, string cursors, null, void) are carried
directly; heap-allocated objects are referenced by an address into the
interpreter heap. -/
inductive Sexp where
  | boolS (b : Bool)
  | fixnum (n : Int)
  | charS (c : Int)
  | cursor (n : Int)
  | nullS
  | voidS
  | ref (a : Nat)
deriving DecidableEq, Repr

/-- Modelled from the spec: a heap-allocated chibi-scheme object.  Pairs,
strings, bytevectors, vectors and exception objects are the kinds the claims
exercise; every other kind is collapsed into an opaque tagged object. -/
inductive HeapObj where
  | pairO (a d : Sexp)
  | stringO (cs : List Int)
  | bytesO (bs : List Int)
  | vectorO (es : List Sexp)
  | exceptionO (tag : Nat)
  | otherO (tag : Nat)
deriving DecidableEq, Repr

/-- Modelled from the spec: the garbage-collected heap of one interpreter
instance, as a list of objects addressed by position. -/
abbrev Heap := List HeapObj

/-- Modelled from the spec: allocation appends a fresh object and returns a
handle to it. -/
def alloc (h : Heap) (o : HeapObj) : Heap × Sexp :=
  (h ++ [o], .ref h.length)

/-- The SEXP_VOID singleton used by wrapper.c for the value-less setters. -/
def SEXP_VOID : Sexp := .voidS

/-- Wrap-around conversion to the 64-bit signed range, modelling the C type
sexp_sint_t on the target platform. -/
def toInt64 (n : Int) : Int := (n + 2 ^ 63) % 2 ^ 64 - 2 ^ 63

/-- Wrap-around conversion to the 32-bit signed range, modelling the C type
int on the target platform. -/
def toInt32 (n : Int) : Int := (n + 2 ^ 31) % 2 ^ 32 - 2 ^ 31

/-- Wrap-around conversion to an 8-bit byte, modelling the C type char (the
parameter and return type wrapper.c uses for characters). -/
def toByte (n : Int) : Int := n % 256

/-- Modelled from the spec: the macro sexp_make_boolean boxes a native
boolean. -/
def sexp_make_boolean_prim (b : Bool) : Sexp := .boolS b

/-- Modelled from the spec: the macro sexp_unbox_boolean recovers the native
boolean; applying it to a non-boolean handle is outside its contract
(modelled as none). -/
def sexp_unbox_boolean_prim : Sexp → Option Bool
  | .boolS b => some b
  | _ => none

/-- Modelled from the spec: the macro sexp_make_fixnum boxes a native
sexp_sint_t value (the argument arrives through a 64-bit parameter). -/
def sexp_make_fixnum_prim (n : Int) : Sexp := .fixnum (toInt64 n)

/-- Modelled from the spec: the macro sexp_unbox_fixnum recovers the native
integer of a fixnum handle. -/
def sexp_unbox_fixnum_prim : Sexp → Option Int
  | .fixnum n => some n
  | _ => none

/-- Modelled from the spec: the macro sexp_make_character boxes a character.
The wrapper passes a C char, so the argument arrives through an 8-bit
parameter. -/
def sexp_make_character_prim (c : Int) : Sexp := .charS (toByte c)

/-- Modelled from the spec: the macro sexp_unbox_character recovers the
character of a character handle. -/
def sexp_unbox_character_prim : Sexp → Option Int
  | .charS c => some c
  | _ => none

/-- Modelled from the spec: the macro sexp_make_string_cursor boxes a native
int (the argument arrives through a 32-bit parameter). -/
def sexp_make_string_cursor_prim (n : Int) : Sexp := .cursor (toInt32 n)

/-- Modelled from the spec: the macro sexp_unbox_string_cursor recovers the
native int of a string-cursor handle. -/
def sexp_unbox_string_cursor_prim : Sexp → Option Int
  | .cursor n => some n
  | _ => none

/-- wrapper.c line 48: sexp_make_boolean forwards to the macro. -/
def sexp_make_boolean (b : Bool) : Sexp := sexp_make_boolean_prim b

/-- wrapper.c line 49: sexp_unbox_boolean forwards to the macro. -/
def sexp_unbox_boolean (obj : Sexp) : Option Bool := sexp_unbox_boolean_prim obj

/-- wrapper.c line 50: sexp_make_fixnum forwards to the macro. -/
def sexp_make_fixnum (n : Int) : Sexp := sexp_make_fixnum_prim n

/-- wrapper.c line 51: sexp_unbox_fixnum forwards to the macro. -/
def sexp_unbox_fixnum (obj : Sexp) : Option Int := sexp_unbox_fixnum_prim obj

/-- wrapper.c line 52: sexp_make_character forwards to the macro; its
parameter has C type char, modelled by the byte conversion. -/
def sexp_make_character (n : Int) : Sexp := sexp_make_character_prim (toByte n)

/-- wrapper.c line 53: sexp_unbox_character forwards to the macro. -/
def sexp_unbox_character (obj : Sexp) : Option Int := sexp_unbox_character_prim obj

/-- wrapper.c line 54: sexp_make_string_cursor forwards to the macro; its
parameter has C type int, modelled by the 32-bit conversion. -/
def sexp_make_string_cursor (n : Int) : Sexp := sexp_make_string_cursor_prim (toInt32 n)

/-- wrapper.c line 55: sexp_unbox_string_cursor forwards to the macro. -/
def sexp_unbox_string_cursor (obj : Sexp) : Option Int := sexp_unbox_string_cursor_prim obj

/-- Modelled from the spec: the type predicate macro sexp_booleanp. -/
def sexp_booleanp_prim (h : Heap) (x : Sexp) : Bool :=
  match h, x with
  | _, .boolS _ => true
  | _, _ => false

/-- Modelled from the spec: the type predicate macro sexp_fixnump. -/
def sexp_fixnump_prim (h : Heap) (x : Sexp) : Bool :=
  match h, x with
  | _, .fixnum _ => true
  | _, _ => false

/-- Modelled from the spec: the type predicate macro sexp_charp. -/
def sexp_charp_prim (h : Heap) (x : Sexp) : Bool :=
  match h, x with
  | _, .charS _ => true
  | _, _ => false

/-- Modelled from the spec: the type predicate macro sexp_string_cursorp. -/
def sexp_string_cursorp_prim (h : Heap) (x : Sexp) : Bool :=
  match h, x with
  | _, .cursor _ => true
  | _, _ => false

/-- Modelled from the spec: the type predicate macro sexp_nullp. -/
def sexp_nullp_prim (h : Heap) (x : Sexp) : Bool :=
  match h, x with
  | _, .nullS => true
  | _, _ => false

/-- Modelled from the spec: the type predicate macro sexp_stringp reads the
heap tag of the referenced object. -/
def sexp_stringp_prim (h : Heap) (x : Sexp) : Bool :=
  match x with
  | .ref a =>
    match h[a]? with
    | some (.stringO _) => true
    | _ => false
  | _ => false

/-- Modelled from the spec: the type predicate macro sexp_bytesp reads the
heap tag of the referenced object. -/
def sexp_bytesp_prim (h : Heap) (x : Sexp) : Bool :=
  match x with
  | .ref a =>
    match h[a]? with
    | some (.bytesO _) => true
    | _ => false
  | _ => false

/-- Modelled from the spec: the type predicate macro sexp_pairp reads the
heap tag of the referenced object. -/
def sexp_pairp_prim (h : Heap) (x : Sexp) : Bool :=
  match x with
  | .ref a =>
    match h[a]? with
    | some (.pairO _ _) => true
    | _ => false
  | _ => false

/-- Modelled from the spec: the type predicate macro sexp_vectorp reads the
heap tag of the referenced object. -/
def sexp_vectorp_prim (h : Heap) (x : Sexp) : Bool :=
  match x with
  | .ref a =>
    match h[a]? with
    | some (.vectorO _) => true
    | _ => false
  | _ => false

/-- Modelled from the spec: the type predicate macro sexp_exceptionp reads
the heap tag of the referenced object. -/
def sexp_exceptionp_prim (h : Heap) (x : Sexp) : Bool :=
  match x with
  | .ref a =>
    match h[a]? with
    | some (.exceptionO _) => true
    | _ => false
  | _ => false

/-- wrapper.c line 5: sexp_booleanp forwards to the macro. -/
def sexp_booleanp (h : Heap) (obj : Sexp) : Bool := sexp_booleanp_prim h obj

/-- wrapper.c line 6: sexp_fixnump forwards to the macro. -/
def sexp_fixnump (h : Heap) (obj : Sexp) : Bool := sexp_fixnump_prim h obj

/-- wrapper.c line 11: sexp_charp forwards to the macro. -/
def sexp_charp (h : Heap) (obj : Sexp) : Bool := sexp_charp_prim h obj

/-- wrapper.c line 12: sexp_stringp forwards to the macro. -/
def sexp_stringp (h : Heap) (obj : Sexp) : Bool := sexp_stringp_prim h obj

/-- wrapper.c line 13: sexp_string_cursorp forwards to the macro. -/
def sexp_string_cursorp (h : Heap) (obj : Sexp) : Bool := sexp_string_cursorp_prim h obj

/-- wrapper.c line 14: sexp_bytesp forwards to the macro. -/
def sexp_bytesp (h : Heap) (obj : Sexp) : Bool := sexp_bytesp_prim h obj

/-- wrapper.c line 16: sexp_nullp forwards to the macro. -/
def sexp_nullp (h : Heap) (obj : Sexp) : Bool := sexp_nullp_prim h obj

/-- wrapper.c line 17: sexp_pairp forwards to the macro. -/
def sexp_pairp (h : Heap) (obj : Sexp) : Bool := sexp_pairp_prim h obj

/-- wrapper.c line 18: sexp_vectorp forwards to the macro. -/
def sexp_vectorp (h : Heap) (obj : Sexp) : Bool := sexp_vectorp_prim h obj

/-- wrapper.c line 26: sexp_exceptionp forwards to the macro. -/
def sexp_exceptionp (h : Heap) (obj : Sexp) : Bool := sexp_exceptionp_prim h obj

/-- Modelled from the spec: the macro sexp_car reads the first field of a
pair; applying it to a non-pair is undefined behavior (none). -/
def sexp_car_prim (h : Heap) (p : Sexp) : Option Sexp :=
  match p with
  | .ref a =>
    match h[a]? with
    | some (.pairO x _) => some x
    | _ => none
  | _ => none

/-- Modelled from the spec: the macro sexp_cdr reads the second field of a
pair; applying it to a non-pair is undefined behavior (none). -/
def sexp_cdr_prim (h : Heap) (p : Sexp) : Option Sexp :=
  match p with
  | .ref a =>
    match h[a]? with
    | some (.pairO _ y) => some y
    | _ => none
  | _ => none

/-- wrapper.c line 56: sexp_car forwards to the macro. -/
def sexp_car (h : Heap) (pair : Sexp) : Option Sexp := sexp_car_prim h pair

/-- wrapper.c line 57: sexp_cdr forwards to the macro. -/
def sexp_cdr (h : Heap) (pair : Sexp) : Option Sexp := sexp_cdr_prim h pair

/-- Modelled from the spec: the macro sexp_cons allocates a fresh pair on the
context's heap and returns its handle. -/
def sexp_cons_prim (h : Heap) (ctx obj1 obj2 : Sexp) : Heap × Sexp :=
  match ctx with
  | _ => alloc h (.pairO obj1 obj2)

/-- Modelled from the spec: the macro sexp_list1 allocates a singleton list. -/
def sexp_list1_prim (h : Heap) (ctx obj : Sexp) : Heap × Sexp :=
  match ctx with
  | _ => alloc h (.pairO obj .nullS)

/-- wrapper.c line 76: sexp_cons forwards to the macro. -/
def sexp_cons (h : Heap) (ctx obj1 obj2 : Sexp) : Heap × Sexp := sexp_cons_prim h ctx obj1 obj2

/-- wrapper.c line 77: sexp_list1 forwards to the macro. -/
def sexp_list1 (h : Heap) (ctx obj : Sexp) : Heap × Sexp := sexp_list1_prim h ctx obj

/-- Modelled from the spec: the macro sexp_make_string allocates a string of
the given length filled with the given character; a negative length yields an
interpreter-level range-error condition; non-fixnum length or non-character
fill is outside the contract (none). -/
def sexp_make_string_prim (h : Heap) (ctx len ch : Sexp) : Option (Heap × Sexp) :=
  match ctx, len, ch with
  | _, .fixnum n, .charS c =>
    if 0 ≤ n then some (alloc h (.stringO (List.replicate n.toNat c)))
    else some (alloc h (.exceptionO 0))
  | _, _, _ => none

/-- Modelled from the spec: the macro sexp_make_bytes allocates a bytevector
of the given length filled with the low byte of the given fixnum; a negative
length yields a range-error condition. -/
def sexp_make_bytes_prim (h : Heap) (ctx len i : Sexp) : Option (Heap × Sexp) :=
  match ctx, len, i with
  | _, .fixnum n, .fixnum b =>
    if 0 ≤ n then some (alloc h (.bytesO (List.replicate n.toNat (toByte b))))
    else some (alloc h (.exceptionO 0))
  | _, _, _ => none

/-- Modelled from the spec: the macro sexp_make_vector allocates a vector of
the given length filled with the given value; a negative length yields a
range-error condition. -/
def sexp_make_vector_prim (h : Heap) (ctx len obj : Sexp) : Option (Heap × Sexp) :=
  match ctx, len, obj with
  | _, .fixnum n, v =>
    if 0 ≤ n then some (alloc h (.vectorO (List.replicate n.toNat v)))
    else some (alloc h (.exceptionO 0))
  | _, _, _ => none

/-- wrapper.c line 78: sexp_make_string forwards to the macro. -/
def sexp_make_string (h : Heap) (ctx len ch : Sexp) : Option (Heap × Sexp) :=
  sexp_make_string_prim h ctx len ch

/-- wrapper.c line 79: sexp_make_bytes forwards to the macro. -/
def sexp_make_bytes (h : Heap) (ctx len i : Sexp) : Option (Heap × Sexp) :=
  sexp_make_bytes_prim h ctx len i

/-- wrapper.c line 80: sexp_make_vector forwards to the macro. -/
def sexp_make_vector (h : Heap) (ctx len obj : Sexp) : Option (Heap × Sexp) :=
  sexp_make_vector_prim h ctx len obj

/-- Modelled from the spec: the macro sexp_string_ref returns the character
at a fixnum index of a string; an out-of-range index on a valid string yields
an interpreter-level range-error condition; other argument kinds are outside
the contract (none). -/
def sexp_string_ref_prim (h : Heap) (ctx s i : Sexp) : Option (Heap × Sexp) :=
  match ctx, s, i with
  | _, .ref a, .fixnum n =>
    match h[a]? with
    | some (.stringO cs) =>
      if 0 ≤ n then
        match cs[n.toNat]? with
        | some c => some (h, .charS c)
        | none => some (alloc h (.exceptionO 1))
      else some (alloc h (.exceptionO 1))
    | _ => none
  | _, _, _ => none

/-- Modelled from the spec: the macro sexp_string_set stores a character at a
fixnum index of a string and yields the void value; an out-of-range index on
a valid string yields a range-error condition. -/
def sexp_string_set_prim (h : Heap) (ctx s i ch : Sexp) : Option (Heap × Sexp) :=
  match ctx, s, i, ch with
  | _, .ref a, .fixnum n, .charS c =>
    match h[a]? with
    | some (.stringO cs) =>
      if 0 ≤ n ∧ n.toNat < cs.length then
        some (h.set a (.stringO (cs.set n.toNat c)), SEXP_VOID)
      else some (alloc h (.exceptionO 1))
    | _ => none
  | _, _, _, _ => none

/-- Modelled from the spec: the macro sexp_string_cursor_set stores a
character at a cursor position of a string as a raw statement with no value;
out-of-contract arguments are undefined behavior (none). -/
def sexp_string_cursor_set_prim (h : Heap) (ctx s i ch : Sexp) : Option Heap :=
  match ctx, s, i, ch with
  | _, .ref a, .cursor n, .charS c =>
    match h[a]? with
    | some (.stringO cs) =>
      if 0 ≤ n ∧ n.toNat < cs.length then some (h.set a (.stringO (cs.set n.toNat c)))
      else none
    | _ => none
  | _, _, _, _ => none

/-- wrapper.c line 39: sexp_string_ref forwards to the macro. -/
def sexp_string_ref (h : Heap) (ctx s i : Sexp) : Option (Heap × Sexp) :=
  sexp_string_ref_prim h ctx s i

/-- wrapper.c line 40: sexp_string_set forwards to the macro. -/
def sexp_string_set (h : Heap) (ctx s i ch : Sexp) : Option (Heap × Sexp) :=
  sexp_string_set_prim h ctx s i ch

/-- wrapper.c line 42: sexp_string_cursor_set calls the macro as a statement
and returns nothing (C return type void, although wrapper.h line 48 declares
the function as returning sexp). -/
def sexp_string_cursor_set (h : Heap) (ctx s i ch : Sexp) : Option Heap :=
  sexp_string_cursor_set_prim h ctx s i ch

/-- Modelled from the spec: the macro sexp_bytes_length reads the byte length
of a bytevector. -/
def sexp_bytes_length_prim (h : Heap) (bv : Sexp) : Option Int :=
  match bv with
  | .ref a =>
    match h[a]? with
    | some (.bytesO bs) => some bs.length
    | _ => none
  | _ => none

/-- Modelled from the spec: the macro sexp_bytes_ref reads the byte at a
fixnum index of a bytevector and boxes it as a fixnum; out-of-range access is
a raw memory read, undefined behavior (none). -/
def sexp_bytes_ref_prim (h : Heap) (bv i : Sexp) : Option Sexp :=
  match bv, i with
  | .ref a, .fixnum n =>
    match h[a]? with
    | some (.bytesO bs) =>
      if 0 ≤ n then (bs[n.toNat]?).map .fixnum else none
    | _ => none
  | _, _ => none

/-- Modelled from the spec: the macro sexp_bytes_set expands to a raw C
assignment storing the low byte of the unboxed fixnum; the expansion's value
is the value of that assignment expression, a native byte, not a sexp.
Out-of-range access is undefined behavior (none). -/
def sexp_bytes_set_prim (h : Heap) (bv i obj : Sexp) : Option (Heap × Int) :=
  match bv, i, obj with
  | .ref a, .fixnum n, .fixnum v =>
    match h[a]? with
    | some (.bytesO bs) =>
      if 0 ≤ n ∧ n.toNat < bs.length then
        some (h.set a (.bytesO (bs.set n.toNat (toByte v))), toByte v)
      else none
    | _ => none
  | _, _, _ => none

/-- Modelled from the spec: the macro sexp_vector_length reads the length of
a vector. -/
def sexp_vector_length_prim (h : Heap) (vec : Sexp) : Option Int :=
  match vec with
  | .ref a =>
    match h[a]? with
    | some (.vectorO es) => some es.length
    | _ => none
  | _ => none

/-- Modelled from the spec: the macro sexp_vector_ref reads the element at a
fixnum index of a vector; out-of-range access is a raw memory read, undefined
behavior (none). -/
def sexp_vector_ref_prim (h : Heap) (vec i : Sexp) : Option Sexp :=
  match vec, i with
  | .ref a, .fixnum n =>
    match h[a]? with
    | some (.vectorO es) =>
      if 0 ≤ n then es[n.toNat]? else none
    | _ => none
  | _, _ => none

/-- Modelled from the spec: the macro sexp_vector_set expands to a raw C
assignment storing the given value; the expansion's value is the value of
that assignment expression, the stored sexp.  Out-of-range access is
undefined behavior (none). -/
def sexp_vector_set_prim (h : Heap) (vec i obj : Sexp) : Option (Heap × Sexp) :=
  match vec, i with
  | .ref a, .fixnum n =>
    match h[a]? with
    | some (.vectorO es) =>
      if 0 ≤ n ∧ n.toNat < es.length then
        some (h.set a (.vectorO (es.set n.toNat obj)), obj)
      else none
    | _ => none
  | _, _ => none

/-- wrapper.c line 62: sexp_bytes_length forwards to the macro. -/
def sexp_bytes_length (h : Heap) (bv : Sexp) : Option Int := sexp_bytes_length_prim h bv

/-- wrapper.c line 64: sexp_bytes_ref forwards to the macro. -/
def sexp_bytes_ref (h : Heap) (bv i : Sexp) : Option Sexp := sexp_bytes_ref_prim h bv i

/-- wrapper.c lines 65-68: sexp_bytes_set calls the macro as a statement,
discards the expansion's value and returns SEXP_VOID instead. -/
def sexp_bytes_set (h : Heap) (bv i obj : Sexp) : Option (Heap × Sexp) :=
  (sexp_bytes_set_prim h bv i obj).map (fun r => (r.1, SEXP_VOID))

/-- wrapper.c line 69: sexp_vector_length forwards to the macro. -/
def sexp_vector_length (h : Heap) (vec : Sexp) : Option Int := sexp_vector_length_prim h vec

/-- wrapper.c line 70: sexp_vector_ref forwards to the macro. -/
def sexp_vector_ref (h : Heap) (vec i : Sexp) : Option Sexp := sexp_vector_ref_prim h vec i

/-- wrapper.c lines 71-74: sexp_vector_set calls the macro as a statement,
discards the expansion's value and returns SEXP_VOID instead. -/
def sexp_vector_set (h : Heap) (vec i obj : Sexp) : Option (Heap × Sexp) :=
  (sexp_vector_set_prim h vec i obj).map (fun r => (r.1, SEXP_VOID))

/-- One call to an Adapter A function of the modelled family, together with
its argument values.  The family covers the type predicates, the scalar
box/unbox pairs, the pair accessors and constructors, the string, bytevector
and vector operations, and the string/bytevector/vector constructors of
wrapper.c. -/
inductive ACall where
  | booleanp (x : Sexp)
  | fixnump (x : Sexp)
  | charp (x : Sexp)
  | stringp (x : Sexp)
  | string_cursorp (x : Sexp)
  | bytesp (x : Sexp)
  | nullp (x : Sexp)
  | pairp (x : Sexp)
  | vectorp (x : Sexp)
  | exceptionp (x : Sexp)
  | make_boolean (b : Bool)
  | unbox_boolean (x : Sexp)
  | make_fixnum (n : Int)
  | unbox_fixnum (x : Sexp)
  | make_character (n : Int)
  | unbox_character (x : Sexp)
  | make_string_cursor (n : Int)
  | unbox_string_cursor (x : Sexp)
  | car (x : Sexp)
  | cdr (x : Sexp)
  | consA (ctx a b : Sexp)
  | list1 (ctx a : Sexp)
  | string_ref (ctx s i : Sexp)
  | string_set (ctx s i ch : Sexp)
  | string_cursor_set (ctx s i ch : Sexp)
  | bytes_length (x : Sexp)
  | bytes_ref (bv i : Sexp)
  | bytes_set (bv i v : Sexp)
  | vector_length (x : Sexp)
  | vector_ref (vec i : Sexp)
  | vector_set (vec i v : Sexp)
  | make_string (ctx len ch : Sexp)
  | make_bytes (ctx len i : Sexp)
  | make_vector (ctx len obj : Sexp)
deriving DecidableEq, Repr

/-- The observable outcome of one call: a native boolean, a native integer,
a value handle, no value (a C void call), or undefined behavior. -/
inductive Res where
  | rBool (b : Bool)
  | rInt (n : Int)
  | rSexp (x : Sexp)
  | rUnit
  | rUndef
deriving DecidableEq, Repr

/-- Lifts a possibly-undefined heap-and-value outcome into a run result. -/
def ofOptHS (h : Heap) : Option (Heap × Sexp) → Heap × Res
  | none => (h, .rUndef)
  | some (h2, x) => (h2, .rSexp x)

/-- Lifts a possibly-undefined pure value outcome into a run result. -/
def ofOptS (h : Heap) : Option Sexp → Heap × Res
  | none => (h, .rUndef)
  | some x => (h, .rSexp x)

/-- Lifts a possibly-undefined native-integer outcome into a run result. -/
def ofOptI (h : Heap) : Option Int → Heap × Res
  | none => (h, .rUndef)
  | some n => (h, .rInt n)

/-- Lifts a possibly-undefined native-boolean outcome into a run result. -/
def ofOptB (h : Heap) : Option Bool → Heap × Res
  | none => (h, .rUndef)
  | some b => (h, .rBool b)

/-- Executes one call through the exposed wrapper functions of wrapper.c. -/
def wrapRunA (h : Heap) : ACall → Heap × Res
  | .booleanp x => (h, .rBool (sexp_booleanp h x))
  | .fixnump x => (h, .rBool (sexp_fixnump h x))
  | .charp x => (h, .rBool (sexp_charp h x))
  | .stringp x => (h, .rBool (sexp_stringp h x))
  | .string_cursorp x => (h, .rBool (sexp_string_cursorp h x))
  | .bytesp x => (h, .rBool (sexp_bytesp h x))
  | .nullp x => (h, .rBool (sexp_nullp h x))
  | .pairp x => (h, .rBool (sexp_pairp h x))
  | .vectorp x => (h, .rBool (sexp_vectorp h x))
  | .exceptionp x => (h, .rBool (sexp_exceptionp h x))
  | .make_boolean b => (h, .rSexp (sexp_make_boolean b))
  | .unbox_boolean x => ofOptB h (sexp_unbox_boolean x)
  | .make_fixnum n => (h, .rSexp (sexp_make_fixnum n))
  | .unbox_fixnum x => ofOptI h (sexp_unbox_fixnum x)
  | .make_character n => (h, .rSexp (sexp_make_character n))
  | .unbox_character x => ofOptI h (sexp_unbox_character x)
  | .make_string_cursor n => (h, .rSexp (sexp_make_string_cursor n))
  | .unbox_string_cursor x => ofOptI h (sexp_unbox_string_cursor x)
  | .car x => ofOptS h (sexp_car h x)
  | .cdr x => ofOptS h (sexp_cdr h x)
  | .consA ctx a b => ((sexp_cons h ctx a b).1, .rSexp (sexp_cons h ctx a b).2)
  | .list1 ctx a => ((sexp_list1 h ctx a).1, .rSexp (sexp_list1 h ctx a).2)
  | .string_ref ctx s i => ofOptHS h (sexp_string_ref h ctx s i)
  | .string_set ctx s i ch => ofOptHS h (sexp_string_set h ctx s i ch)
  | .string_cursor_set ctx s i ch =>
    match sexp_string_cursor_set h ctx s i ch with
    | some h2 => (h2, .rUnit)
    | none => (h, .rUndef)
  | .bytes_length x => ofOptI h (sexp_bytes_length h x)
  | .bytes_ref bv i => ofOptS h (sexp_bytes_ref h bv i)
  | .bytes_set bv i v => ofOptHS h (sexp_bytes_set h bv i v)
  | .vector_length x => ofOptI h (sexp_vector_length h x)
  | .vector_ref vec i => ofOptS h (sexp_vector_ref h vec i)
  | .vector_set vec i v => ofOptHS h (sexp_vector_set h vec i v)
  | .make_string ctx len ch => ofOptHS h (sexp_make_string h ctx len ch)
  | .make_bytes ctx len i => ofOptHS h (sexp_make_bytes h ctx len i)
  | .make_vector ctx len obj => ofOptHS h (sexp_make_vector h ctx len obj)

/-- Executes one call directly through the wrapped interpreter macros (the
modelled primitives), bypassing the wrapper layer. -/
def primRunA (h : Heap) : ACall → Heap × Res
  | .booleanp x => (h, .rBool (sexp_booleanp_prim h x))
  | .fixnump x => (h, .rBool (sexp_fixnump_prim h x))
  | .charp x => (h, .rBool (sexp_charp_prim h x))
  | .stringp x => (h, .rBool (sexp_stringp_prim h x))
  | .string_cursorp x => (h, .rBool (sexp_string_cursorp_prim h x))
  | .bytesp x => (h, .rBool (sexp_bytesp_prim h x))
  | .nullp x => (h, .rBool (sexp_nullp_prim h x))
  | .pairp x => (h, .rBool (sexp_pairp_prim h x))
  | .vectorp x => (h, .rBool (sexp_vectorp_prim h x))
  | .exceptionp x => (h, .rBool (sexp_exceptionp_prim h x))
  | .make_boolean b => (h, .rSexp (sexp_make_boolean_prim b))
  | .unbox_boolean x => ofOptB h (sexp_unbox_boolean_prim x)
  | .make_fixnum n => (h, .rSexp (sexp_make_fixnum_prim n))
  | .unbox_fixnum x => ofOptI h (sexp_unbox_fixnum_prim x)
  | .make_character n => (h, .rSexp (sexp_make_character_prim (toByte n)))
  | .unbox_character x => ofOptI h (sexp_unbox_character_prim x)
  | .make_string_cursor n => (h, .rSexp (sexp_make_string_cursor_prim (toInt32 n)))
  | .unbox_string_cursor x => ofOptI h (sexp_unbox_string_cursor_prim x)
  | .car x => ofOptS h (sexp_car_prim h x)
  | .cdr x => ofOptS h (sexp_cdr_prim h x)
  | .consA ctx a b => ((sexp_cons_prim h ctx a b).1, .rSexp (sexp_cons_prim h ctx a b).2)
  | .list1 ctx a => ((sexp_list1_prim h ctx a).1, .rSexp (sexp_list1_prim h ctx a).2)
  | .string_ref ctx s i => ofOptHS h (sexp_string_ref_prim h ctx s i)
  | .string_set ctx s i ch => ofOptHS h (sexp_string_set_prim h ctx s i ch)
  | .string_cursor_set ctx s i ch =>
    match sexp_string_cursor_set_prim h ctx s i ch with
    | some h2 => (h2, .rUnit)
    | none => (h, .rUndef)
  | .bytes_length x => ofOptI h (sexp_bytes_length_prim h x)
  | .bytes_ref bv i => ofOptS h (sexp_bytes_ref_prim h bv i)
  | .bytes_set bv i v =>
    match sexp_bytes_set_prim h bv i v with
    | some (h2, n) => (h2, .rInt n)
    | none => (h, .rUndef)
  | .vector_length x => ofOptI h (sexp_vector_length_prim h x)
  | .vector_ref vec i => ofOptS h (sexp_vector_ref_prim h vec i)
  | .vector_set vec i v =>
    match sexp_vector_set_prim h vec i v with
    | some (h2, x) => (h2, .rSexp x)
    | none => (h, .rUndef)
  | .make_string ctx len ch => ofOptHS h (sexp_make_string_prim h ctx len ch)
  | .make_bytes ctx len i => ofOptHS h (sexp_make_bytes_prim h ctx len i)
  | .make_vector ctx len obj => ofOptHS h (sexp_make_vector_prim h ctx len obj)

/-- The constant result a wrapper substitutes for the macro expansion's own
value, when it does so: wrapper.c replaces the values of the raw bytevector
and vector setters with SEXP_VOID and forwards every other modelled call's
result unchanged. -/
def resultReplaced : ACall → Option Res
  | .bytes_set _ _ _ => some (.rSexp SEXP_VOID)
  | .vector_set _ _ _ => some (.rSexp SEXP_VOID)
  | _ => none

/-- Recognizes the string-cursor setter, the one function whose wrapper.h
declaration and wrapper.c definition disagree. -/
def isCursorSetCall : ACall → Bool
  | .string_cursor_set _ _ _ _ => true
  | _ => false

/-- A C return type, as written in the wrapper sources. -/
inductive CType where
  | sexpT
  | boolT
  | intT
  | sintT
  | uintT
  | charT
  | voidT
deriving DecidableEq, Repr

/-- The return type each modelled function is declared with in wrapper.h. -/
def declaredReturnA : ACall → CType
  | .booleanp _ | .fixnump _ | .charp _ | .stringp _ | .string_cursorp _
  | .bytesp _ | .nullp _ | .pairp _ | .vectorp _ | .exceptionp _ => .boolT
  | .make_boolean _ => .sexpT
  | .unbox_boolean _ => .boolT
  | .make_fixnum _ => .sexpT
  | .unbox_fixnum _ => .sintT
  | .make_character _ => .sexpT
  | .unbox_character _ => .charT
  | .make_string_cursor _ => .sexpT
  | .unbox_string_cursor _ => .intT
  | .car _ | .cdr _ => .sexpT
  | .consA _ _ _ | .list1 _ _ => .sexpT
  | .string_ref _ _ _ | .string_set _ _ _ _ => .sexpT
  | .string_cursor_set _ _ _ _ => .sexpT
  | .bytes_length _ => .uintT
  | .bytes_ref _ _ | .bytes_set _ _ _ => .sexpT
  | .vector_length _ => .uintT
  | .vector_ref _ _ | .vector_set _ _ _ => .sexpT
  | .make_string _ _ _ | .make_bytes _ _ _ | .make_vector _ _ _ => .sexpT

/-- The return type each modelled function is defined with in wrapper.c. -/
def definedReturnA : ACall → CType
  | .booleanp _ | .fixnump _ | .charp _ | .stringp _ | .string_cursorp _
  | .bytesp _ | .nullp _ | .pairp _ | .vectorp _ | .exceptionp _ => .boolT
  | .make_boolean _ => .sexpT
  | .unbox_boolean _ => .boolT
  | .make_fixnum _ => .sexpT
  | .unbox_fixnum _ => .sintT
  | .make_character _ => .sexpT
  | .unbox_character _ => .charT
  | .make_string_cursor _ => .sexpT
  | .unbox_string_cursor _ => .intT
  | .car _ | .cdr _ => .sexpT
  | .consA _ _ _ | .list1 _ _ => .sexpT
  | .string_ref _ _ _ | .string_set _ _ _ _ => .sexpT
  | .string_cursor_set _ _ _ _ => .voidT
  | .bytes_length _ => .uintT
  | .bytes_ref _ _ | .bytes_set _ _ _ => .sexpT
  | .vector_length _ => .uintT
  | .vector_ref _ _ | .vector_set _ _ _ => .sexpT
  | .make_string _ _ _ | .make_bytes _ _ _ | .make_vector _ _ _ => .sexpT

/-- The observable value of one call as the spec's amended pass-through
discipline states it: every call yields the wrapped macro expansion's own
value, except that the raw bytevector and vector setters yield the constant
SEXP_VOID whenever the call is defined. -/
def specObservedResult (h : Heap) (c : ACall) : Res :=
  match resultReplaced c with
  | none => (primRunA h c).2
  | some r => if (primRunA h c).2 = .rUndef then .rUndef else r

/-- Tests whether address a holds an exception object. -/
def isExnAt (h : Heap) (a : Nat) : Bool :=
  match h[a]? with
  | some (.exceptionO _) => true
  | _ => false

/-- Tests whether a call running on initial heap h, final heap h2 and result
r raised an interpreter-level condition: its result is a handle to an
exception object freshly allocated by the call. -/
def raisesCond (h h2 : Heap) (r : Res) : Bool :=
  match r with
  | .rSexp (.ref a) => decide (h.length ≤ a) && isExnAt h2 a
  | _ => false

end Chibi

namespace Guile

/-- Modelled from the spec: an opaque guile value handle.  The wrapped set is
small, so pairs are carried structurally; every other kind is collapsed into
an opaque tagged value. -/
inductive SCM where
  | boolG (b : Bool)
  | eol
  | symG (n : Nat)
  | pairG (a d : SCM)
  | unspecified
  | otherG (n : Nat)
deriving DecidableEq, Repr

/-- Modelled from the spec: the macro scm_car reads the first field of a
pair; applying it to a non-pair is undefined behavior (none). -/
def scm_car_prim : SCM → Option SCM
  | .pairG a _ => some a
  | _ => none

/-- Modelled from the spec: the macro scm_cdr reads the second field of a
pair; applying it to a non-pair is undefined behavior (none). -/
def scm_cdr_prim : SCM → Option SCM
  | .pairG _ d => some d
  | _ => none

/-- Modelled from the spec: the macro scm_is_false tests whether the handle
is the canonical false singleton. -/
def scm_is_false_prim (v : SCM) : Bool := v = .boolG false

/-- Modelled from the spec: the macro scm_is_true tests whether the handle is
truthy; in Scheme every value other than the canonical false singleton is
truthy. -/
def scm_is_true_prim (v : SCM) : Bool := v ≠ .boolG false

/-- Modelled from the spec: the macro scm_is_null tests for the empty-list
singleton. -/
def scm_is_null_prim (v : SCM) : Bool := v = .eol

/-- Modelled from the spec: the macro scm_is_symbol tests for symbols. -/
def scm_is_symbol_prim : SCM → Bool
  | .symG _ => true
  | _ => false

/-- Modelled from the spec: the macro scm_from_bool boxes a native boolean
into the corresponding boolean singleton. -/
def scm_from_bool_prim (b : Bool) : SCM := .boolG b

/-- Modelled from the spec: the raw allocator state of non-interpreter-owned
buffers, as the set of currently allocated block addresses. -/
abbrev RawHeap := List Nat

/-- Modelled from the spec: the C library function free releases an
allocated block; releasing a block that is not allocated is undefined
behavior (none). -/
def free_prim (m : RawHeap) (p : Nat) : Option RawHeap :=
  if p ∈ m then some (m.erase p) else none

/-- guile wrapper.c lines 5-7: scm_car_wrapper forwards to the macro. -/
def scm_car_wrapper (obj : SCM) : Option SCM := scm_car_prim obj

/-- guile wrapper.c lines 9-11: scm_cdr_wrapper forwards to the macro. -/
def scm_cdr_wrapper (obj : SCM) : Option SCM := scm_cdr_prim obj

/-- guile wrapper.c lines 13-15: scm_is_true_wrapper forwards to the macro. -/
def scm_is_true_wrapper (obj : SCM) : Bool := scm_is_true_prim obj

/-- guile wrapper.c lines 17-19: scm_is_false_wrapper forwards to the macro. -/
def scm_is_false_wrapper (obj : SCM) : Bool := scm_is_false_prim obj

/-- guile wrapper.c lines 21-23: scm_is_null forwards to the macro. -/
def scm_is_null (obj : SCM) : Bool := scm_is_null_prim obj

/-- guile wrapper.c lines 25-27: scm_is_symbol forwards to the macro. -/
def scm_is_symbol (obj : SCM) : Bool := scm_is_symbol_prim obj

/-- guile wrapper.c lines 29-31: scm_from_bool forwards to the macro. -/
def scm_from_bool (obj : Bool) : SCM := scm_from_bool_prim obj

/-- guile wrapper.c lines 33-35: wrapper_free forwards to free. -/
def wrapper_free (m : RawHeap) (ptr : Nat) : Option RawHeap := free_prim m ptr

/-- One call to an Adapter B function, with its argument values. -/
inductive BCall where
  | carB (x : SCM)
  | cdrB (x : SCM)
  | isTrueB (x : SCM)
  | isFalseB (x : SCM)
  | isNullB (x : SCM)
  | isSymbolB (x : SCM)
  | fromBoolB (b : Bool)
  | freeB (p : Nat)
deriving DecidableEq, Repr

/-- The observable outcome of one Adapter B call. -/
inductive BRes where
  | rBool (b : Bool)
  | rSCM (x : SCM)
  | rUnit
  | rUndef
deriving DecidableEq, Repr

/-- Executes one call through the exposed wrapper functions of the guile
wrapper.c, threading the raw buffer allocator state. -/
def wrapRunB (m : RawHeap) : BCall → RawHeap × BRes
  | .carB x =>
    match scm_car_wrapper x with
    | some y => (m, .rSCM y)
    | none => (m, .rUndef)
  | .cdrB x =>
    match scm_cdr_wrapper x with
    | some y => (m, .rSCM y)
    | none => (m, .rUndef)
  | .isTrueB x => (m, .rBool (scm_is_true_wrapper x))
  | .isFalseB x => (m, .rBool (scm_is_false_wrapper x))
  | .isNullB x => (m, .rBool (scm_is_null x))
  | .isSymbolB x => (m, .rBool (scm_is_symbol x))
  | .fromBoolB b => (m, .rSCM (scm_from_bool b))
  | .freeB p =>
    match wrapper_free m p with
    | some m2 => (m2, .rUnit)
    | none => (m, .rUndef)

/-- Executes one Adapter B call directly through the wrapped macros. -/
def primRunB (m : RawHeap) : BCall → RawHeap × BRes
  | .carB x =>
    match scm_car_prim x with
    | some y => (m, .rSCM y)
    | none => (m, .rUndef)
  | .cdrB x =>
    match scm_cdr_prim x with
    | some y => (m, .rSCM y)
    | none => (m, .rUndef)
  | .isTrueB x => (m, .rBool (scm_is_true_prim x))
  | .isFalseB x => (m, .rBool (scm_is_false_prim x))
  | .isNullB x => (m, .rBool (scm_is_null_prim x))
  | .isSymbolB x => (m, .rBool (scm_is_symbol_prim x))
  | .fromBoolB b => (m, .rSCM (scm_from_bool_prim b))
  | .freeB p =>
    match free_prim m p with
    | some m2 => (m2, .rUnit)
    | none => (m, .rUndef)

end Guile

section Helpers

variable {α : Type}

theorem getElem?_append_singleton (xs : List α) (o : α) : (xs ++ [o])[xs.length]? = some o := by
  induction xs with
  | nil => rfl
  | cons x xs ih => simp [ih]


theorem getElem?_replicate_of_lt (v : α) : ∀ (L i : Nat), i < L →
    (List.replicate L v)[i]? = some v := by
  intro L
  induction L with
  | zero => intro i hi; omega
  | succ L ih =>
    intro i hi
    cases i with
    | zero => simp [List.replicate_succ]
    | succ i => simpa [List.replicate_succ] using ih i (by omega)

theorem getElem?_set_self_of_lt (w : α) : ∀ (xs : List α) (i : Nat), i < xs.length →
    (xs.set i w)[i]? = some w := by
  intro xs
  induction xs with
  | nil => intro i hi; simp at hi
  | cons x xs ih =>
    intro i hi
    cases i with
    | zero => simp
    | succ i => simpa using ih i (by simpa using hi)

theorem getElem?_none_of_le (xs : List α) (i : Nat) (hi : xs.length ≤ i) : xs[i]? = none := by
  exact List.getElem?_eq_none hi

end Helpers

namespace Chibi

theorem raisesCond_rSexp_of_length_eq (h h2 : Heap) (x : Sexp) (hl : h2.length = h.length) :
    raisesCond h h2 (.rSexp x) = false := by
  cases x with
  | ref a =>
    by_cases hc : h.length ≤ a
    · simp [raisesCond, isExnAt, getElem?_none_of_le h2 a (by omega)]
    · simp [raisesCond, hc]
  | boolS b => rfl
  | fixnum n => rfl
  | charS c => rfl
  | cursor n => rfl
  | nullS => rfl
  | voidS => rfl

theorem toInt64_eq_of_range (n : Int) (h1 : -(2 ^ 63) ≤ n) (h2 : n < 2 ^ 63) : toInt64 n = n := by
  have e1 : (2 : Int) ^ 63 = 9223372036854775808 := by norm_num
  have e2 : (2 : Int) ^ 64 = 18446744073709551616 := by norm_num
  unfold toInt64
  rw [e1, e2]
  rw [e1] at h1 h2
  omega

theorem toInt32_eq_of_range (n : Int) (h1 : -(2 ^ 31) ≤ n) (h2 : n < 2 ^ 31) : toInt32 n = n := by
  have e1 : (2 : Int) ^ 31 = 2147483648 := by norm_num
  have e2 : (2 : Int) ^ 32 = 4294967296 := by norm_num
  unfold toInt32
  rw [e1, e2]
  rw [e1] at h1 h2
  omega

theorem toByte_eq_of_range (n : Int) (h1 : 0 ≤ n) (h2 : n < 256) : toByte n = n := by
  unfold toByte
  omega

theorem toNat_int_ofNat (n : Nat) : (Int.ofNat n).toNat = n := rfl

theorem int_ofNat_nonneg (n : Nat) : (0 : Int) ≤ Int.ofNat n :=
  Int.ofNat_le.mpr (Nat.zero_le n)

theorem make_vector_eq (h : Heap) (ctx v : Sexp) (L : Nat) :
    sexp_make_vector h ctx (.fixnum (Int.ofNat L)) v =
      some (h ++ [.vectorO (List.replicate L v)], .ref h.length) := by
  simp [sexp_make_vector, sexp_make_vector_prim, alloc, int_ofNat_nonneg, toNat_int_ofNat]

theorem make_bytes_eq (h : Heap) (ctx : Sexp) (L : Nat) (b : Int) :
    sexp_make_bytes h ctx (.fixnum (Int.ofNat L)) (.fixnum b) =
      some (h ++ [.bytesO (List.replicate L (toByte b))], .ref h.length) := by
  simp [sexp_make_bytes, sexp_make_bytes_prim, alloc, int_ofNat_nonneg, toNat_int_ofNat]

theorem make_string_eq (h : Heap) (ctx : Sexp) (L : Nat) (c : Int) :
    sexp_make_string h ctx (.fixnum (Int.ofNat L)) (.charS c) =
      some (h ++ [.stringO (List.replicate L c)], .ref h.length) := by
  simp [sexp_make_string, sexp_make_string_prim, alloc, int_ofNat_nonneg, toNat_int_ofNat]

theorem vector_ref_eq (h : Heap) (a : Nat) (es : List Sexp) (i : Nat)
    (hget : h[a]? = some (.vectorO es)) :
    sexp_vector_ref h (.ref a) (.fixnum (Int.ofNat i)) = es[i]? := by
  simp [sexp_vector_ref, sexp_vector_ref_prim, hget, int_ofNat_nonneg, toNat_int_ofNat]

theorem vector_set_eq (h : Heap) (a : Nat) (es : List Sexp) (i : Nat) (w : Sexp)
    (hget : h[a]? = some (.vectorO es)) (hlt : i < es.length) :
    sexp_vector_set h (.ref a) (.fixnum (Int.ofNat i)) w =
      some (h.set a (.vectorO (es.set i w)), SEXP_VOID) := by
  simp [sexp_vector_set, sexp_vector_set_prim, hget, int_ofNat_nonneg, hlt, toNat_int_ofNat]

theorem bytes_ref_eq (h : Heap) (a : Nat) (bs : List Int) (i : Nat)
    (hget : h[a]? = some (.bytesO bs)) :
    sexp_bytes_ref h (.ref a) (.fixnum (Int.ofNat i)) = (bs[i]?).map Sexp.fixnum := by
  simp [sexp_bytes_ref, sexp_bytes_ref_prim, hget, int_ofNat_nonneg, toNat_int_ofNat]

theorem bytes_set_eq (h : Heap) (a : Nat) (bs : List Int) (i : Nat) (v : Int)
    (hget : h[a]? = some (.bytesO bs)) (hlt : i < bs.length) :
    sexp_bytes_set h (.ref a) (.fixnum (Int.ofNat i)) (.fixnum v) =
      some (h.set a (.bytesO (bs.set i (toByte v))), SEXP_VOID) := by
  simp [sexp_bytes_set, sexp_bytes_set_prim, hget, int_ofNat_nonneg, hlt, toNat_int_ofNat]

theorem string_ref_eq (h : Heap) (ctx : Sexp) (a : Nat) (cs : List Int) (i : Nat) (c : Int)
    (hget : h[a]? = some (.stringO cs)) (hc : cs[i]? = some c) :
    sexp_string_ref h ctx (.ref a) (.fixnum (Int.ofNat i)) = some (h, .charS c) := by
  simp [sexp_string_ref, sexp_string_ref_prim, hget, int_ofNat_nonneg, toNat_int_ofNat, hc]

theorem string_set_eq (h : Heap) (ctx : Sexp) (a : Nat) (cs : List Int) (i : Nat) (c : Int)
    (hget : h[a]? = some (.stringO cs)) (hlt : i < cs.length) :
    sexp_string_set h ctx (.ref a) (.fixnum (Int.ofNat i)) (.charS c) =
      some (h.set a (.stringO (cs.set i c)), SEXP_VOID) := by
  simp [sexp_string_set, sexp_string_set_prim, hget, int_ofNat_nonneg, hlt, toNat_int_ofNat]

end Chibi

open Chibi Guile

/-- Claim C4 (corrected part): the character round trip fails for a
non-ASCII code point that does not fit the wrapper's C char parameter.
Calling sexp_make_character with code point 945 truncates it mod 256, so
unboxing yields 177, not 945. -/
theorem C4_counterexample :
    sexp_unbox_character (sexp_make_character 945) = some 177 ∧
    sexp_unbox_character (sexp_make_character 945) ≠ some 945 := by
  constructor <;> decide

/-- Claim C4 (amended): the scalar box/unbox pairs round-trip on booleans,
on every value of the native 64-bit signed integer width including its
extremal values, and on every character code representable in the wrapper's
C char parameter (which includes all ASCII code points); code points outside
that range are truncated by the parameter type and do not round-trip. -/
theorem C4_amended :
    (∀ b : Bool, sexp_unbox_boolean (sexp_make_boolean b) = some b) ∧
    (∀ n : Int, -(2 ^ 63) ≤ n → n < 2 ^ 63 →
      sexp_unbox_fixnum (sexp_make_fixnum n) = some n) ∧
    (∀ c : Int, 0 ≤ c → c < 256 →
      sexp_unbox_character (sexp_make_character c) = some c) := by
  refine ⟨?_, ?_, ?_⟩
  · intro b
    cases b <;> rfl
  · intro n h1 h2
    show some (toInt64 n) = some n
    rw [toInt64_eq_of_range n h1 h2]
  · intro c h1 h2
    show some (toByte (toByte c)) = some c
    rw [toByte_eq_of_range c h1 h2, toByte_eq_of_range c h1 h2]

/-- Claim C4 witness: the amended round-trip laws evaluated at true, at both
extremal 64-bit integers, and at the ASCII code point 97. -/
theorem C4_witness :
    sexp_unbox_boolean (sexp_make_boolean true) = some true ∧
    sexp_unbox_fixnum (sexp_make_fixnum 9223372036854775807) = some 9223372036854775807 ∧
    sexp_unbox_fixnum (sexp_make_fixnum (-9223372036854775808)) = some (-9223372036854775808) ∧
    sexp_unbox_character (sexp_make_character 97) = some 97 :=
  ⟨C4_amended.1 true,
   C4_amended.2.1 9223372036854775807 (by norm_num) (by norm_num),
   C4_amended.2.1 (-9223372036854775808) (by norm_num) (by norm_num),
   C4_amended.2.2 97 (by norm_num) (by norm_num)⟩

/-- Claim C10: the string-cursor box/unbox pair round-trips for every native
int representable in the wrapper's 32-bit int parameter. -/
theorem C10_cursor_roundtrip :
    ∀ n : Int, -(2 ^ 31) ≤ n → n < 2 ^ 31 →
      sexp_unbox_string_cursor (sexp_make_string_cursor n) = some n := by
  intro n h1 h2
  show some (toInt32 (toInt32 n)) = some n
  rw [toInt32_eq_of_range n h1 h2, toInt32_eq_of_range n h1 h2]

/-- Claim C10 witness: the cursor round trip evaluated at the extremal int
2147483647. -/
theorem C10_witness :
    sexp_unbox_string_cursor (sexp_make_string_cursor 2147483647) = some 2147483647 :=
  C10_cursor_roundtrip 2147483647 (by norm_num) (by norm_num)

/-- Claim C6: the Adapter B truthiness laws on the canonical boolean
singletons produced by scm_from_bool. -/
theorem C6_truthiness :
    scm_is_true_wrapper (scm_from_bool true) = true ∧
    scm_is_false_wrapper (scm_from_bool true) = false ∧
    scm_is_true_wrapper (scm_from_bool false) = false ∧
    scm_is_false_wrapper (scm_from_bool false) = true := by
  refine ⟨by decide, by decide, by decide, by decide⟩

/-- Claim C5: reading the first and second field of a freshly consed pair
returns the two consed values, on any heap and for any context handle. -/
theorem C5_pair_laws :
    ∀ (h : Heap) (ctx a b : Sexp),
      sexp_car (sexp_cons h ctx a b).1 (sexp_cons h ctx a b).2 = some a ∧
      sexp_cdr (sexp_cons h ctx a b).1 (sexp_cons h ctx a b).2 = some b := by
  intro h ctx a b
  constructor <;>
    simp [sexp_car, sexp_cdr, sexp_car_prim, sexp_cdr_prim, sexp_cons, sexp_cons_prim,
      alloc, getElem?_append_singleton]

/-- Claim C9: whenever a call to the wrapper functions sexp_bytes_set or
sexp_vector_set is defined, the value they return is the SEXP_VOID
singleton, regardless of arguments and of the wrapped macro expansion's own
value. -/
theorem C9_setters_return_void :
    ∀ (h : Heap) (bv i v : Sexp) (p : Heap × Sexp),
      (sexp_bytes_set h bv i v = some p → p.2 = SEXP_VOID) ∧
      (sexp_vector_set h bv i v = some p → p.2 = SEXP_VOID) := by
  intro h bv i v p
  constructor
  · intro hp
    rcases hq : sexp_bytes_set_prim h bv i v with _ | r
    · simp [sexp_bytes_set, hq] at hp
    · simp [sexp_bytes_set, hq] at hp
      rw [← hp]
  · intro hp
    rcases hq : sexp_vector_set_prim h bv i v with _ | r
    · simp [sexp_vector_set, hq] at hp
    · simp [sexp_vector_set, hq] at hp
      rw [← hp]

/-- Claim C9 witness: a defined concrete bytevector write returns SEXP_VOID. -/
theorem C9_witness :
    (([HeapObj.bytesO [5]], SEXP_VOID) : Heap × Sexp).2 = SEXP_VOID :=
  (C9_setters_return_void [HeapObj.bytesO [0]] (.ref 0) (.fixnum 0) (.fixnum 5)
    ([HeapObj.bytesO [5]], SEXP_VOID)).1 (by decide)

/-- Claim C7: for a vector, bytevector or string freshly constructed with
length L and fill value v, every indexed read below L returns v, and after a
write at index i the read at i returns the written value.  For the
bytevector the fill and written values are bytes. -/
theorem C7_sequence_laws :
    (∀ (h : Heap) (ctx v w : Sexp) (L i : Nat), i < L →
      ∀ h1 vec, sexp_make_vector h ctx (.fixnum (Int.ofNat L)) v = some (h1, vec) →
        sexp_vector_ref h1 vec (.fixnum (Int.ofNat i)) = some v ∧
        ∀ h2 r, sexp_vector_set h1 vec (.fixnum (Int.ofNat i)) w = some (h2, r) →
          sexp_vector_ref h2 vec (.fixnum (Int.ofNat i)) = some w) ∧
    (∀ (h : Heap) (ctx : Sexp) (b wv : Int) (L i : Nat), i < L →
        0 ≤ b → b < 256 → 0 ≤ wv → wv < 256 →
      ∀ h1 bv, sexp_make_bytes h ctx (.fixnum (Int.ofNat L)) (.fixnum b) = some (h1, bv) →
        sexp_bytes_ref h1 bv (.fixnum (Int.ofNat i)) = some (.fixnum b) ∧
        ∀ h2 r, sexp_bytes_set h1 bv (.fixnum (Int.ofNat i)) (.fixnum wv) = some (h2, r) →
          sexp_bytes_ref h2 bv (.fixnum (Int.ofNat i)) = some (.fixnum wv)) ∧
    (∀ (h : Heap) (ctx : Sexp) (c wc : Int) (L i : Nat), i < L →
      ∀ h1 s, sexp_make_string h ctx (.fixnum (Int.ofNat L)) (.charS c) = some (h1, s) →
        sexp_string_ref h1 ctx s (.fixnum (Int.ofNat i)) = some (h1, .charS c) ∧
        ∀ h2 r, sexp_string_set h1 ctx s (.fixnum (Int.ofNat i)) (.charS wc) = some (h2, r) →
          sexp_string_ref h2 ctx s (.fixnum (Int.ofNat i)) = some (h2, .charS wc)) := by
  refine ⟨?_, ?_, ?_⟩
  · intro h ctx v w L i hiL h1 vec hmk
    rw [make_vector_eq] at hmk
    rw [Option.some.injEq, Prod.mk.injEq] at hmk
    obtain ⟨rfl, rfl⟩ := hmk
    have hobj : (h ++ [HeapObj.vectorO (List.replicate L v)])[h.length]? =
        some (.vectorO (List.replicate L v)) := getElem?_append_singleton h _
    constructor
    · rw [vector_ref_eq _ _ _ _ hobj]
      exact getElem?_replicate_of_lt v L i hiL
    · intro h2 r hset
      rw [vector_set_eq _ _ _ _ _ hobj (by simpa using hiL)] at hset
      rw [Option.some.injEq, Prod.mk.injEq] at hset
      obtain ⟨rfl, rfl⟩ := hset
      have hobj2 : ((h ++ [HeapObj.vectorO (List.replicate L v)]).set h.length
            (.vectorO ((List.replicate L v).set i w)))[h.length]? =
          some (.vectorO ((List.replicate L v).set i w)) :=
        getElem?_set_self_of_lt _ _ h.length (by simp)
      rw [vector_ref_eq _ _ _ _ hobj2]
      exact getElem?_set_self_of_lt w _ i (by simpa using hiL)
  · intro h ctx b wv L i hiL hb1 hb2 hw1 hw2 h1 bv hmk
    rw [make_bytes_eq] at hmk
    rw [Option.some.injEq, Prod.mk.injEq] at hmk
    obtain ⟨rfl, rfl⟩ := hmk
    have hobj : (h ++ [HeapObj.bytesO (List.replicate L (toByte b))])[h.length]? =
        some (.bytesO (List.replicate L (toByte b))) := getElem?_append_singleton h _
    constructor
    · rw [bytes_ref_eq _ _ _ _ hobj]
      rw [getElem?_replicate_of_lt (toByte b) L i hiL]
      rw [toByte_eq_of_range b hb1 hb2]
      rfl
    · intro h2 r hset
      rw [bytes_set_eq _ _ _ _ _ hobj (by simpa using hiL)] at hset
      rw [Option.some.injEq, Prod.mk.injEq] at hset
      obtain ⟨rfl, rfl⟩ := hset
      have hobj2 : ((h ++ [HeapObj.bytesO (List.replicate L (toByte b))]).set h.length
            (.bytesO ((List.replicate L (toByte b)).set i (toByte wv))))[h.length]? =
          some (.bytesO ((List.replicate L (toByte b)).set i (toByte wv))) :=
        getElem?_set_self_of_lt _ _ h.length (by simp)
      rw [bytes_ref_eq _ _ _ _ hobj2]
      rw [getElem?_set_self_of_lt (toByte wv) _ i (by simpa using hiL)]
      rw [toByte_eq_of_range wv hw1 hw2]
      rfl
  · intro h ctx c wc L i hiL h1 s hmk
    rw [make_string_eq] at hmk
    rw [Option.some.injEq, Prod.mk.injEq] at hmk
    obtain ⟨rfl, rfl⟩ := hmk
    have hobj : (h ++ [HeapObj.stringO (List.replicate L c)])[h.length]? =
        some (.stringO (List.replicate L c)) := getElem?_append_singleton h _
    constructor
    · exact string_ref_eq _ _ _ _ _ _ hobj (getElem?_replicate_of_lt c L i hiL)
    · intro h2 r hset
      rw [string_set_eq _ _ _ _ _ _ hobj (by simpa using hiL)] at hset
      rw [Option.some.injEq, Prod.mk.injEq] at hset
      obtain ⟨rfl, rfl⟩ := hset
      have hobj2 : ((h ++ [HeapObj.stringO (List.replicate L c)]).set h.length
            (.stringO ((List.replicate L c).set i wc)))[h.length]? =
          some (.stringO ((List.replicate L c).set i wc)) :=
        getElem?_set_self_of_lt _ _ h.length (by simp)
      exact string_ref_eq _ _ _ _ _ _ hobj2
        (getElem?_set_self_of_lt wc _ i (by simpa using hiL))

theorem vector_set_prim_spec (h : Heap) (vec i obj : Sexp) (r : Heap × Sexp)
    (hq : Chibi.sexp_vector_set_prim h vec i obj = some r) :
    r.1.length = h.length ∧ r.2 = obj := by
  unfold sexp_vector_set_prim at hq
  repeat' split at hq
  all_goals first
    | (cases hq; exact ⟨by simp, rfl⟩)
    | simp at hq

/-- Claim C1 (corrected part): not every exposed wrapper returns the
underlying operation's own result unchanged.  On a concrete one-vector heap,
the wrapper sexp_vector_set returns SEXP_VOID while the wrapped macro's
expansion yields the stored value. -/
theorem C1_counterexample :
    wrapRunA [HeapObj.vectorO [Sexp.fixnum 1, Sexp.fixnum 2]]
        (.vector_set (.ref 0) (.fixnum 0) (.fixnum 7)) ≠
      primRunA [HeapObj.vectorO [Sexp.fixnum 1, Sexp.fixnum 2]]
        (.vector_set (.ref 0) (.fixnum 0) (.fixnum 7)) := by
  decide

/-- Claim C1 (amended): every modelled wrapper call of both adapters
performs exactly the wrapped macro's state effect, every modelled call other
than sexp_bytes_set and sexp_vector_set also returns the macro's own result
unchanged, and every Adapter B call is a full pass-through. -/
theorem C1_amended :
    (∀ (h : Heap) (c : ACall), (wrapRunA h c).1 = (primRunA h c).1) ∧
    (∀ (h : Heap) (c : ACall), resultReplaced c = none → wrapRunA h c = primRunA h c) ∧
    (∀ (m : RawHeap) (c : BCall), wrapRunB m c = primRunB m c) := by
  refine ⟨?_, ?_, ?_⟩
  · intro h c
    cases c <;> try rfl
    case bytes_set bv i v =>
      rcases hq : sexp_bytes_set_prim h bv i v with _ | r <;>
        simp [wrapRunA, primRunA, sexp_bytes_set, hq, ofOptHS]
    case vector_set vec i v =>
      rcases hq : sexp_vector_set_prim h vec i v with _ | r <;>
        simp [wrapRunA, primRunA, sexp_vector_set, hq, ofOptHS]
  · intro h c hrep
    cases c <;> first | rfl | simp [resultReplaced] at hrep
  · intro m c
    cases c <;> rfl

/-- Claim C1 witness: a concrete non-setter call is a full pass-through. -/
theorem C1_witness :
    wrapRunA [] (.car .nullS) = primRunA [] (.car .nullS) :=
  C1_amended.2.1 [] (.car .nullS) rfl

/-- Claim C2: the Adapter A wrapper layer is error-transparent on every
modelled call: it leaves the heap exactly as the wrapped macro does, it
raises an interpreter-level condition exactly when the wrapped macro does,
and when the macro raises one the wrapper's outcome is identical to the
macro's. -/
theorem C2_error_transparency :
    ∀ (h : Heap) (c : ACall),
      (wrapRunA h c).1 = (primRunA h c).1 ∧
      raisesCond h (wrapRunA h c).1 (wrapRunA h c).2 =
        raisesCond h (primRunA h c).1 (primRunA h c).2 ∧
      (raisesCond h (primRunA h c).1 (primRunA h c).2 = true →
        wrapRunA h c = primRunA h c) := by
  intro h c
  cases c <;> try exact ⟨rfl, rfl, fun _ => rfl⟩
  case bytes_set bv i v =>
    rcases hq : sexp_bytes_set_prim h bv i v with _ | r <;>
      refine ⟨?_, ?_, ?_⟩ <;>
      simp [wrapRunA, primRunA, sexp_bytes_set, hq, ofOptHS, raisesCond, SEXP_VOID]
  case vector_set vec i v =>
    rcases hq : sexp_vector_set_prim h vec i v with _ | r
    · refine ⟨?_, ?_, ?_⟩ <;>
        simp [wrapRunA, primRunA, sexp_vector_set, hq, ofOptHS, raisesCond, SEXP_VOID]
    · have hs := vector_set_prim_spec h vec i v r hq
      refine ⟨?_, ?_, ?_⟩
      · simp [wrapRunA, primRunA, sexp_vector_set, hq, ofOptHS]
      · have h1 : raisesCond h r.1 (.rSexp r.2) = false :=
          raisesCond_rSexp_of_length_eq h r.1 r.2 hs.1
        have h2 : raisesCond h r.1 (.rSexp SEXP_VOID) = false := rfl
        simp [wrapRunA, primRunA, sexp_vector_set, hq, ofOptHS, h1, h2]
      · intro hra
        have h1 : raisesCond h r.1 (.rSexp r.2) = false :=
          raisesCond_rSexp_of_length_eq h r.1 r.2 hs.1
        simp [primRunA, hq, h1] at hra

/-- Claim C2 witness: on a call whose wrapped macro raises a range-error
condition (sexp_string_ref out of range), the wrapper's outcome is the
macro's outcome. -/
theorem C2_witness :
    wrapRunA [HeapObj.stringO [65]] (.string_ref .nullS (.ref 0) (.fixnum 5)) =
      primRunA [HeapObj.stringO [65]] (.string_ref .nullS (.ref 0) (.fixnum 5)) :=
  (C2_error_transparency [HeapObj.stringO [65]]
    (.string_ref .nullS (.ref 0) (.fixnum 5))).2.2 (by decide)

/-- Claim C3 (corrected part): on a concrete bytevector write the caller
observes SEXP_VOID from sexp_bytes_set while the macro expansion yields the
stored byte (a native value of a different C type), and the return type
wrapper.h declares for sexp_string_cursor_set differs from the type
wrapper.c defines it with. -/
theorem C3_counterexample :
    (wrapRunA [HeapObj.bytesO [0]] (.bytes_set (.ref 0) (.fixnum 0) (.fixnum 7))).2 =
        .rSexp SEXP_VOID ∧
    (primRunA [HeapObj.bytesO [0]] (.bytes_set (.ref 0) (.fixnum 0) (.fixnum 7))).2 =
        .rInt 7 ∧
    Res.rSexp SEXP_VOID ≠ Res.rInt 7 ∧
    declaredReturnA (.string_cursor_set .nullS .nullS .nullS .nullS) ≠
      definedReturnA (.string_cursor_set .nullS .nullS .nullS .nullS) := by
  refine ⟨by decide, by decide, by decide, by decide⟩

/-- Claim C3 (amended): every modelled call's observed value follows the
amended discipline (the macro expansion's value, except SEXP_VOID from the
two raw setters), and for every function other than sexp_string_cursor_set
the declared and defined return types agree. -/
theorem C3_amended :
    ∀ (h : Heap) (c : ACall),
      (wrapRunA h c).2 = specObservedResult h c ∧
      (isCursorSetCall c = false → declaredReturnA c = definedReturnA c) := by
  intro h c
  constructor
  · cases c <;> try rfl
    case bytes_set bv i v =>
      rcases hq : sexp_bytes_set_prim h bv i v with _ | r <;>
        simp [wrapRunA, specObservedResult, resultReplaced, primRunA, sexp_bytes_set,
          hq, ofOptHS]
    case vector_set vec i v =>
      rcases hq : sexp_vector_set_prim h vec i v with _ | r <;>
        simp [wrapRunA, specObservedResult, resultReplaced, primRunA, sexp_vector_set,
          hq, ofOptHS]
  · intro hns
    cases c <;> first | rfl | simp [isCursorSetCall] at hns

/-- Claim C3 witness: a concrete non-cursor-setter call has matching
declared and defined return types. -/
theorem C3_witness :
    declaredReturnA (.car .nullS) = definedReturnA (.car .nullS) :=
  (C3_amended [] (.car .nullS)).2 rfl

/-- Claim C7 witness: the vector law evaluated on a concrete two-element
vector, with both the fresh read and the write-then-read conclusions. -/
theorem C7_witness :
    sexp_vector_ref [HeapObj.vectorO [Sexp.fixnum 5, Sexp.fixnum 5]] (.ref 0)
        (.fixnum (Int.ofNat 1)) = some (.fixnum 5) ∧
    sexp_vector_ref [HeapObj.vectorO [Sexp.fixnum 5, Sexp.fixnum 9]] (.ref 0)
        (.fixnum (Int.ofNat 1)) = some (.fixnum 9) := by
  have base := (C7_sequence_laws.1 [] Sexp.nullS (.fixnum 5) (.fixnum 9) 2 1 (by decide)
    [HeapObj.vectorO [Sexp.fixnum 5, Sexp.fixnum 5]] (.ref 0) (by decide))
  exact ⟨base.1, base.2 [HeapObj.vectorO [Sexp.fixnum 5, Sexp.fixnum 9]] SEXP_VOID (by decide)⟩

end SkyliteWrappers
